import Mathlib

/-
Verification of the user-resource routes of the repository
(src/server/src/routes/user.ts, key-count variant wired by src/server/src/server.ts).

The embedding models:
  * the User record and the store (backed by the SQLite schema in
    prisma/migrations/20221216065037_create_models/migration.sql, whose
    unique indexes on User.login and User.email are the store-level backstop);
  * the zod schema of validatePost (field checks in declaration order,
    one issue per violated field for this schema's check chains);
  * the four route handlers getAll / getById / getByQuery / post, with the
    store calls they issue recorded in an explicit operation trace.

Strings are modelled through their character lists (Lean String.data); the
payloads appearing in the routes are ASCII/Latin, where JavaScript's UTF-16
string length and Lean's codepoint length agree.
-/

namespace UserRoutes

/-- A persisted User row (model User of the prisma schema): store-assigned
integer id plus the four caller-supplied string fields. -/
structure User where
  id : Nat
  login : String
  email : String
  password : String
  name : String
deriving DecidableEq

/-- The external store: the list of User rows in insertion (iteration) order,
plus the autoincrement counter for the next id. -/
structure Store where
  users : List User
  nextId : Nat
deriving DecidableEq

/-- A JSON value as far as the routes distinguish them: a string, or any
non-string value (zod's z.string() rejects the latter uniformly). -/
inductive Val where
  | str (s : String)
  | nonStr
deriving DecidableEq

/-- A request body / JSON object: association list of key/value pairs.
JSON.parse yields at most one entry per key, so Object.keys(body).length is
the list length. -/
abbrev Payload := List (String × Val)

/-- Reading one key of the body (property access on the parsed JSON object). -/
def lookupKey (p : Payload) (k : String) : Option Val :=
  (p.find? (fun kv => kv.1 == k)).map (·.2)

/-- Object.keys(request.body).length. -/
def keyCount (p : Payload) : Nat := p.length

/-- One field-level validation failure, as produced by the
error.issues.map(...) block of validatePost: `{ field, message }`. -/
structure FieldError where
  field : String
  message : String
deriving DecidableEq

/-- The fixed allowed symbol set of the password regex: @ $ ! % * ? &. -/
def passwordSymbol (c : Char) : Bool :=
  c == '@' || c == '$' || c == '!' || c == '%' || c == '*' || c == '?' || c == '&'

/-- The characters the password regex allows anywhere in the string:
its body is [A-Za-z\d@$!%*?&]{6,}. -/
def passwordAllowedChar (c : Char) : Bool :=
  c.isLower || c.isUpper || c.isDigit || passwordSymbol c

/-- Denotation of the anchored JavaScript regex
^(?=.*[a-z])(?=.*[A-Z])(?=.*\d)(?=.*[@$!%*?&])[A-Za-z\d@$!%*?&]{6,}$ :
every character comes from the body alphabet, the total length is at least 6,
and each lookahead demands one character of its class ([a-z], [A-Z], \d and
the symbol set are the ASCII classes, matching Lean's Char.isLower /
Char.isUpper / Char.isDigit). A string matching the body contains no line
terminator, so the dot of each lookahead reaches every position. -/
def passwordRegexMatch (s : String) : Bool :=
  s.data.all passwordAllowedChar && decide (6 ≤ s.data.length) &&
  s.data.any Char.isLower && s.data.any Char.isUpper &&
  s.data.any Char.isDigit && s.data.any passwordSymbol

/-- Splitting a character list at every occurrence of a separator character
(the character-level counterpart of String.split used to state the email
shape executably). -/
def splitOnChar (sep : Char) : List Char → List (List Char)
  | [] => [[]]
  | c :: cs =>
    let rest := splitOnChar sep cs
    if c == sep then [] :: rest
    else
      match rest with
      | [] => [[c]]
      | r :: rs => (c :: r) :: rs

/-- Modelled from the spec: the zod library's z.string().email() check is
external to the repository; the spec only requires that the value
"must match a valid email shape". Shape: no whitespace, exactly one `@`
separating a nonempty local part from a domain of at least two nonempty
dot-separated labels. -/
def emailOk (s : String) : Bool :=
  s.data.all (fun c => !c.isWhitespace) &&
  match splitOnChar '@' s.data with
  | [lp, dom] =>
    !lp.isEmpty &&
    (let labels := splitOnChar '.' dom
     decide (2 ≤ labels.length) && labels.all (fun l => !l.isEmpty))
  | _ => false

/-- z.string().min(3).max(50) with the two name messages: a missing key is
zod's Required issue, a non-string is its invalid-type issue, and a string
violates at most one of min/max, so at most one issue arises. -/
def checkName : Option Val → Option String
  | none => some "Required"
  | some Val.nonStr => some "Expected string, received other"
  | some (Val.str s) =>
    if s.data.length < 3 then some "Nome deve ter no mínimo 3 caracteres."
    else if 50 < s.data.length then some "Nome deve ter no máximo 50 caracteres."
    else none

/-- z.string().min(4).max(20) with the two login messages. -/
def checkLogin : Option Val → Option String
  | none => some "Required"
  | some Val.nonStr => some "Expected string, received other"
  | some (Val.str s) =>
    if s.data.length < 4 then some "Login deve ter no mínimo 4 caracteres."
    else if 20 < s.data.length then some "Login deve ter no máximo 20 caracteres."
    else none

/-- z.string().email() with the email message. -/
def checkEmail : Option Val → Option String
  | none => some "Required"
  | some Val.nonStr => some "Expected string, received other"
  | some (Val.str s) =>
    if emailOk s then none else some "Email inválido."

/-- z.string().regex(passwordRegex) with the password message. -/
def checkPassword : Option Val → Option String
  | none => some "Required"
  | some Val.nonStr => some "Expected string, received other"
  | some (Val.str s) =>
    if passwordRegexMatch s then none
    else some "Senha deve conter no mínimo 6 caracteres, pelo menos uma letra maiúscula, uma letra minúscula, um número e um caractere especial."

/-- The userSchema shape of validatePost, in declaration order:
name, login, email, password. -/
def fieldChecks : List (String × (Option Val → Option String)) :=
  [("name", checkName), ("login", checkLogin), ("email", checkEmail), ("password", checkPassword)]

/-- userSchema.parse(request.body) followed by the issue-flattening map:
zod walks the shape in declaration order, collecting the issues of every
field (not fail-fast); for this schema each field contributes at most one
issue. The empty list is a successful parse. -/
def validateSchema (p : Payload) : List FieldError :=
  fieldChecks.filterMap (fun fc => (fc.2 (lookupKey p fc.1)).map (fun m => ⟨fc.1, m⟩))

/-- True when an existing row collides with the candidate login or email:
the OR filter of the uniqueness pre-check (prisma.user.findFirst with
OR: [ left-brace login right-brace, left-brace email right-brace ]) and the
disjunction enforced by the store's two unique indexes. -/
def conflictsWith (login email : String) (u : User) : Bool :=
  u.login == login || u.email == email

/-- The uniqueness pre-check read of validatePost: first stored row whose
login or email equals the candidate values. -/
def findFirstConflict (s : Store) (login email : String) : Option User :=
  s.users.find? (conflictsWith login email)

/-- prisma.user.create under the unique indexes User_login_key and
User_email_key of the migration: the insert fails (the client throws)
exactly when some existing row shares the login or the email; otherwise the
row is appended with the store-assigned autoincrement id. -/
def createUser (s : Store) (name login email password : String) :
    Except Unit (Store × User) :=
  if s.users.any (conflictsWith login email) then .error ()
  else
    let u : User := ⟨s.nextId, login, email, password, name⟩
    .ok ({ users := s.users ++ [u], nextId := s.nextId + 1 }, u)

/-- A store call issued while serving one request: the uniqueness pre-check
read, a lookup read (findUnique / findFirst / findMany), or an insert
carrying exactly the four field values handed to prisma.user.create. -/
inductive StoreOp where
  | uniqRead
  | findRead
  | insertOp (name login email password : String)
deriving DecidableEq

/-- Outcome of POST /user. uncaughtError is the branch where
prisma.user.create throws (store-level unique-constraint violation) with no
try/catch in the handler: the rejection propagates as a generic server
failure, not as one of the handler's own responses. -/
inductive PostOutcome where
  | malformedShape
  | fieldValidationFailed (errs : List FieldError)
  | conflict
  | created (u : User)
  | uncaughtError
deriving DecidableEq

/-- Result of one POST /user invocation: the response outcome, the store
state after the request, and the trace of store calls issued. -/
structure PostResult where
  outcome : PostOutcome
  store : Store
  ops : List StoreOp
deriving DecidableEq

/-- Reading a string field out of a payload (JavaScript destructuring
const ... = request.body). On the paths where this is used the schema has
already forced the value to be a present string, so the default is inert. -/
def getStrD (p : Payload) (k : String) : String :=
  match lookupKey p k with
  | some (Val.str s) => s
  | _ => ""

/-- The POST /user handler (post + validatePost), with the race window made
explicit: the uniqueness pre-check of validatePost reads the store state
sCheck, while prisma.user.create runs against the (possibly newer) state
sInsert. A single uninterleaved request is the diagonal post p s := post2 p s s.
Stages in source order: key-count structural check, userSchema.parse,
uniqueness pre-check, insert of exactly the four destructured fields. -/
def post2 (p : Payload) (sCheck sInsert : Store) : PostResult :=
  if keyCount p ≠ 4 then ⟨.malformedShape, sInsert, []⟩
  else
    match validateSchema p with
    | e :: es => ⟨.fieldValidationFailed (e :: es), sInsert, []⟩
    | [] =>
      let login := getStrD p "login"
      let email := getStrD p "email"
      match findFirstConflict sCheck login email with
      | some _ => ⟨.conflict, sInsert, [.uniqRead]⟩
      | none =>
        let name := getStrD p "name"
        let password := getStrD p "password"
        match createUser sInsert name login email password with
        | .error _ =>
          ⟨.uncaughtError, sInsert, [.uniqRead, .insertOp name login email password]⟩
        | .ok (s2, u) =>
          ⟨.created u, s2, [.uniqRead, .insertOp name login email password]⟩

/-- POST /user served alone: pre-check and insert see the same store. -/
def post (p : Payload) (s : Store) : PostResult := post2 p s s

/-- Outcome of a GET route: 200 with a record, 204 no-content with a text
message, or 400 bad-request. -/
inductive GetOutcome where
  | ok (u : User)
  | noContent
  | badRequest
deriving DecidableEq

/-- The HTTP status the handler attaches to each outcome class. -/
def statusOf : GetOutcome → Nat
  | .ok _ => 200
  | .noContent => 204
  | .badRequest => 400

/-- Digits-to-number accumulator for the numeric id model. -/
def natOfDigits (acc : Nat) : List Char → Nat
  | [] => acc
  | c :: cs => natOfDigits (acc * 10 + (c.toNat - 48)) cs

/-- JavaScript Number(id) on a path id segment, on the shapes a route id can
take: a nonempty all-digit string is that decimal number, anything else is
NaN (modelled as none). The ids the store assigns are the nonnegative
integers, so signs, fractions and exponents in the segment would not match a
row either way. -/
def numOfString? (s : String) : Option Nat :=
  if s.data ≠ [] ∧ s.data.all Char.isDigit then some (natOfDigits 0 s.data) else none

/-- The GET /user/:id handler (getById). prisma.user.findUnique with a NaN
id matches no row (no stored row carries a non-integer id), so a non-numeric
segment falls into the same 204 branch as a missing record; the handler has
no bad-request branch. -/
def getById (idStr : String) (s : Store) : GetOutcome × List StoreOp :=
  match numOfString? idStr with
  | some n =>
    match s.users.find? (fun u => u.id == n) with
    | some u => (.ok u, [.findRead])
    | none => (.noContent, [.findRead])
  | none => (.noContent, [.findRead])

/-- The parsed query string of GET /user: the three recognized parameters
(absent parameters destructure to undefined, modelled none) plus the number
of further, unrecognized parameter names present in the query map. -/
structure Query where
  name : Option String
  login : Option String
  email : Option String
  otherKeys : Nat
deriving DecidableEq

/-- Object.keys(request.query).length. -/
def Query.keyCount (q : Query) : Nat :=
  (if q.name.isSome then 1 else 0) + (if q.login.isSome then 1 else 0) +
  (if q.email.isSome then 1 else 0) + q.otherKeys

/-- The OR filter handed to prisma.user.findFirst by getByQuery. An
undefined member is ignored by the client ("absent fields contribute no
clause"), so an absent parameter yields a false disjunct rather than a
constraint. -/
def queryPred (q : Query) (u : User) : Bool :=
  (match q.name with | some v => v == u.name | none => false) ||
  (match q.login with | some v => v == u.login | none => false) ||
  (match q.email with | some v => v == u.email | none => false)

/-- The GET /user handler (getByQuery): reject with 400 when the query map
has no keys at all, otherwise take the first stored row matching the OR
filter. -/
def getByQuery (q : Query) (s : Store) : GetOutcome × List StoreOp :=
  if q.keyCount = 0 then (.badRequest, [])
  else
    match s.users.find? (queryPred q) with
    | some u => (.ok u, [.findRead])
    | none => (.noContent, [.findRead])

/-- Whether the schema reports field k of payload p as violated: the check
registered for k in fieldChecks fails on the payload's value for k. -/
def violatesField (p : Payload) (k : String) : Bool :=
  match fieldChecks.find? (fun fc => fc.1 == k) with
  | some fc => (fc.2 (lookupKey p k)).isSome
  | none => false

/-- Dropping leading whitespace of a character list. -/
def dropLeadingWS : List Char → List Char
  | [] => []
  | c :: cs => if c.isWhitespace then dropLeadingWS cs else c :: cs

/-- String.prototype.trim over the character list: strip leading and
trailing whitespace. -/
def trimChars (l : List Char) : List Char :=
  ((dropLeadingWS (dropLeadingWS l).reverse).reverse)

/-- The password rule exactly as the spec words it, for comparison with the
code's regex: the trimmed string has at least one lowercase letter, one
uppercase letter, one digit, one symbol of the fixed allowed set, and total
length at least 6 — with no restriction on the remaining characters. -/
def specPasswordOk (s : String) : Bool :=
  let t := trimChars s.data
  decide (6 ≤ t.length) && t.any Char.isLower && t.any Char.isUpper &&
  t.any Char.isDigit && t.any passwordSymbol

/-- The valid creation payload used as concrete witness input (the spec's
round-trip example). -/
def samplePayload : Payload :=
  [("name", Val.str "Alice Doe"), ("login", Val.str "alice1"),
   ("email", Val.str "a@x.com"), ("password", Val.str "Abcdef1!")]

/-- A four-key payload that omits the required key password (an unrecognized
key takes its place), keeping the key count at four. -/
def samplePayloadMissingPw : Payload :=
  [("name", Val.str "Alice Doe"), ("login", Val.str "alice1"),
   ("email", Val.str "a@x.com"), ("extra", Val.str "x")]

/-- A four-key payload with two violated fields (name too short, invalid
email). -/
def samplePayloadTwoBad : Payload :=
  [("name", Val.str "Al"), ("login", Val.str "alice1"),
   ("email", Val.str "not-an-email"), ("password", Val.str "Abcdef1!")]

/-- The row samplePayload persists to. -/
def sampleAlice : User := ⟨1, "alice1", "a@x.com", "Abcdef1!", "Alice Doe"⟩

/-- A store holding exactly sampleAlice. -/
def sampleStore : Store := ⟨[sampleAlice], 2⟩

/-- The empty store. -/
def emptyStore : Store := ⟨[], 1⟩

/-- A query map supplying only an unrecognized parameter name: none of
name / login / email present, one other key. -/
def sampleQueryOnlyOther : Query := ⟨none, none, none, 1⟩

/-- A query map supplying only login = alice1. -/
def sampleQueryLogin : Query := ⟨none, some "alice1", none, 0⟩

lemma required_mem_validateSchema (p : Payload) (k : String)
    (hk : k ∈ ["name", "login", "email", "password"]) (h : lookupKey p k = none) :
    (⟨k, "Required"⟩ : FieldError) ∈ validateSchema p := by
  rw [validateSchema, List.mem_filterMap]
  fin_cases hk
  · exact ⟨("name", checkName), by simp [fieldChecks], by rw [h]; rfl⟩
  · exact ⟨("login", checkLogin), by simp [fieldChecks], by rw [h]; rfl⟩
  · exact ⟨("email", checkEmail), by simp [fieldChecks], by rw [h]; rfl⟩
  · exact ⟨("password", checkPassword), by simp [fieldChecks], by rw [h]; rfl⟩

lemma validateSchema_fields (p : Payload) :
    (validateSchema p).map FieldError.field =
      (fieldChecks.map Prod.fst).filter (violatesField p) := by
  rw [validateSchema, fieldChecks]
  cases hn : checkName (lookupKey p "name") <;>
    cases hl : checkLogin (lookupKey p "login") <;>
      cases he : checkEmail (lookupKey p "email") <;>
        cases hp : checkPassword (lookupKey p "password") <;>
          simp [List.filterMap_cons, violatesField, fieldChecks, hn, hl, he, hp]

/-- C1. A creation payload missing one of the four required keys is rejected
with no store operation and the store unchanged; the rejection reason is the
malformed-payload-shape response exactly when the total key count differs
from four — a four-key payload missing a required key instead reaches schema
validation and is rejected there. -/
theorem C1_missing_key_rejected (p : Payload) (s : Store) (k : String)
    (hk : k ∈ ["name", "login", "email", "password"]) (h : lookupKey p k = none) :
    (post p s).ops = [] ∧ (post p s).store = s ∧
    ((post p s).outcome = .malformedShape ∨
      ∃ errs, (post p s).outcome = .fieldValidationFailed errs) ∧
    ((post p s).outcome = .malformedShape ↔ keyCount p ≠ 4) := by
  have hvs : validateSchema p ≠ [] :=
    List.ne_nil_of_mem (required_mem_validateSchema p k hk h)
  unfold post post2
  by_cases h4 : keyCount p = 4
  · simp only [h4, ne_eq, not_true_eq_false, if_false]
    cases hv : validateSchema p with
    | nil => exact absurd hv hvs
    | cons e es => simp
  · simp [h4]

theorem C1_witness :
    (post ([("name", Val.str "Alice Doe")]) emptyStore).outcome = PostOutcome.malformedShape := by
  have := C1_missing_key_rejected ([("name", Val.str "Alice Doe")]) emptyStore "login"
    (by decide) (by decide)
  exact this.2.2.2.mpr (by decide)

/-- C1 as stated is false: samplePayloadMissingPw misses the required key
password yet has four keys, so the pipeline does not answer with the
malformed-payload-shape response (it rejects at schema validation). -/
theorem C1_counterexample :
    lookupKey samplePayloadMissingPw "password" = none ∧
    (post samplePayloadMissingPw sampleStore).outcome ≠ PostOutcome.malformedShape := by
  decide

/-- C2. On a payload holding all four keys with at least one violated field,
the schema stage reports exactly one field/message pair per violated field,
in the schema's declaration order (name, login, email, password); no store
call is made and the store is unchanged, and (when the structural key count
admits the payload) the pipeline answers with exactly that error list. -/
theorem C2_field_errors (p : Payload) (s : Store)
    (hkeys : ∀ k ∈ ["name", "login", "email", "password"], (lookupKey p k).isSome)
    (hbad : validateSchema p ≠ []) :
    (validateSchema p).map FieldError.field =
      (fieldChecks.map Prod.fst).filter (violatesField p) ∧
    (post p s).ops = [] ∧ (post p s).store = s ∧
    (keyCount p = 4 → (post p s).outcome = .fieldValidationFailed (validateSchema p)) := by
  refine ⟨validateSchema_fields p, ?_⟩
  unfold post post2
  by_cases h4 : keyCount p = 4
  · simp only [h4, ne_eq, not_true_eq_false, if_false]
    cases hv : validateSchema p with
    | nil => exact absurd hv hbad
    | cons e es => simp [hv]
  · simp [h4]

theorem C2_witness :
    (validateSchema samplePayloadTwoBad).map FieldError.field = ["name", "email"] ∧
    (post samplePayloadTwoBad sampleStore).ops = [] := by
  have h := C2_field_errors samplePayloadTwoBad sampleStore (by decide) (by decide)
  exact ⟨by rw [h.1]; decide, h.2.1⟩

/-- C3. A structurally and schema-valid payload whose login or email equals
that of a stored row is answered with the duplicate-conflict rejection; the
only store call is the uniqueness read, and the store is unchanged. -/
theorem C3_conflict_no_insert (p : Payload) (s : Store) (u : User)
    (h4 : keyCount p = 4) (hv : validateSchema p = []) (hu : u ∈ s.users)
    (hdup : u.login = getStrD p "login" ∨ u.email = getStrD p "email") :
    (post p s).outcome = .conflict ∧ (post p s).store = s ∧
    (post p s).ops = [.uniqRead] := by
  have hc : conflictsWith (getStrD p "login") (getStrD p "email") u = true := by
    unfold conflictsWith
    rcases hdup with h | h <;> simp [h]
  have hfind : (findFirstConflict s (getStrD p "login") (getStrD p "email")).isSome := by
    rw [findFirstConflict, List.find?_isSome]
    exact ⟨u, hu, hc⟩
  unfold post post2
  simp only [h4, ne_eq, not_true_eq_false, if_false, hv]
  cases hfc : findFirstConflict s (getStrD p "login") (getStrD p "email") with
  | none => rw [hfc] at hfind; simp at hfind
  | some w => simp

theorem C3_witness : (post samplePayload sampleStore).outcome = PostOutcome.conflict :=
  (C3_conflict_no_insert samplePayload sampleStore sampleAlice (by decide) (by decide)
    (by decide) (Or.inl (by decide))).1

/-- C4 amended. Get-by-id has no client-error class: a non-numeric
identifier (NaN id, matching no row) and a numeric identifier with no
matching row both land in the same no-content branch, answered with
status 204 — not 400 and not 404. -/
theorem C4_get_by_id_no_content (idStr : String) (s : Store)
    (h : numOfString? idStr = none ∨
      ∃ n, numOfString? idStr = some n ∧ ∀ u ∈ s.users, u.id ≠ n) :
    (getById idStr s).1 = .noContent ∧ statusOf (getById idStr s).1 = 204 := by
  have hnc : (getById idStr s).1 = GetOutcome.noContent := by
    unfold getById
    rcases h with h | ⟨n, hn, hno⟩
    · simp [h]
    · simp only [hn]
      cases hf : s.users.find? (fun u => u.id == n) with
      | none => rfl
      | some u =>
        have hpu := List.find?_some hf
        have hm := List.mem_of_find?_eq_some hf
        simp at hpu
        exact absurd hpu (hno u hm)
  exact ⟨hnc, by rw [hnc]; rfl⟩

theorem C4_witness : (getById "abc" sampleStore).1 = GetOutcome.noContent :=
  (C4_get_by_id_no_content "abc" sampleStore (Or.inl (by decide))).1

/-- C4 as stated is false: the non-numeric identifier abc is not answered
with a 400 client error distinct from not-found; it gets the same 204
no-content response as an unmatched numeric identifier. -/
theorem C4_counterexample :
    (getById "abc" sampleStore).1 ≠ GetOutcome.badRequest ∧
    statusOf (getById "abc" sampleStore).1 = 204 ∧
    statusOf (getById "99999" sampleStore).1 = 204 := by
  decide

/-- C5. The lookup filter of get-by-query is exactly the disjunction of the
equality tests of the provided fields — an absent field contributes no
clause — so any row the handler returns agrees with the caller on at least
one field value the caller actually supplied. -/
theorem C5_disjunctive_match (q : Query) (s : Store) (u : User)
    (hprov : q.name.isSome ∨ q.login.isSome ∨ q.email.isSome) :
    ((getByQuery q s).1 = .ok u →
      q.name = some u.name ∨ q.login = some u.login ∨ q.email = some u.email) ∧
    (∀ v : User, queryPred q v = true ↔
      (q.name = some v.name ∨ q.login = some v.login ∨ q.email = some v.email)) := by
  have hpred : ∀ v : User, queryPred q v = true ↔
      (q.name = some v.name ∨ q.login = some v.login ∨ q.email = some v.email) := by
    intro v
    obtain ⟨qn, ql, qe, qo⟩ := q
    cases qn <;> cases ql <;> cases qe <;> simp [queryPred, beq_iff_eq, or_assoc]
  refine ⟨?_, hpred⟩
  intro hok
  unfold getByQuery at hok
  by_cases h0 : q.keyCount = 0
  · simp [h0] at hok
  · simp only [h0, if_false] at hok
    cases hf : s.users.find? (queryPred q) with
    | none => rw [hf] at hok; simp at hok
    | some w =>
      rw [hf] at hok
      simp only [] at hok
      have hw := List.find?_some hf
      have : w = u := by
        cases hok
        rfl
      rw [this] at hw
      exact (hpred u).mp hw

theorem C5_witness :
    sampleQueryLogin.name = some sampleAlice.name ∨
    sampleQueryLogin.login = some sampleAlice.login ∨
    sampleQueryLogin.email = some sampleAlice.email :=
  (C5_disjunctive_match sampleQueryLogin sampleStore sampleAlice
    (Or.inr (Or.inl (by decide)))).1 (by decide)

/-- C6 amended. In the race window — the pre-check sees a conflict-free
store, a conflicting row is committed before the insert — the insert's
store-level unique-constraint violation is not caught by the handler: the
outcome is the propagated uncaught error, not the duplicate-conflict
response (and the store keeps the racing row only). -/
theorem C6_race_uncaught (p : Payload) (s1 s2 : Store)
    (h4 : keyCount p = 4) (hv : validateSchema p = [])
    (hpre : findFirstConflict s1 (getStrD p "login") (getStrD p "email") = none)
    (hrace : s2.users.any (conflictsWith (getStrD p "login") (getStrD p "email")) = true) :
    (post2 p s1 s2).outcome = .uncaughtError ∧ (post2 p s1 s2).store = s2 := by
  simp [post2, createUser, h4, hv, hpre, hrace]

theorem C6_witness :
    (post2 samplePayload emptyStore sampleStore).outcome = PostOutcome.uncaughtError :=
  (C6_race_uncaught samplePayload emptyStore sampleStore (by decide) (by decide)
    (by decide) (by decide)).1

/-- C6 as stated is false: with the duplicate committed between pre-check
and insert, the pipeline's outcome is the uncaught store error, not the
duplicate-conflict outcome of the pre-check. -/
theorem C6_counterexample :
    (post2 samplePayload emptyStore sampleStore).outcome ≠ PostOutcome.conflict ∧
    (post2 samplePayload emptyStore sampleStore).outcome = PostOutcome.uncaughtError := by
  decide

/-- C7 amended. The validator accepts a password string iff every character
belongs to the regex body alphabet [A-Za-z0-9@$!%*?&] AND the string has at
least 6 characters, one lowercase letter, one uppercase letter, one digit
and one symbol of the fixed set. The whole-string alphabet restriction is
additional to what the spec states, and no trimming is applied. -/
theorem C7_password_characterization (s : String) :
    checkPassword (some (Val.str s)) = none ↔
      ((∀ c ∈ s.data, passwordAllowedChar c = true) ∧ 6 ≤ s.data.length ∧
       (∃ c ∈ s.data, c.isLower = true) ∧ (∃ c ∈ s.data, c.isUpper = true) ∧
       (∃ c ∈ s.data, c.isDigit = true) ∧ (∃ c ∈ s.data, passwordSymbol c = true)) := by
  have h : checkPassword (some (Val.str s)) = none ↔ passwordRegexMatch s = true := by
    unfold checkPassword
    by_cases hp : passwordRegexMatch s = true <;> simp [hp]
  rw [h]
  unfold passwordRegexMatch
  simp [List.all_eq_true, List.any_eq_true, Bool.and_eq_true, decide_eq_true_eq, and_assoc]

/-- C7 as stated is false: Aa1!bc# has a lowercase letter, an uppercase
letter, a digit, a symbol of the fixed set and length at least 6 (its own
trim), yet the validator rejects it — the character # is outside the
regex's restricted alphabet, a condition the claim omits. -/
theorem C7_counterexample :
    specPasswordOk "Aa1!bc#" = true ∧
    checkPassword (some (Val.str "Aa1!bc#")) ≠ none := by
  decide

/-- C8. When structural check, schema validation and uniqueness pre-check
all pass, the pipeline issues exactly the uniqueness read followed by one
insert carrying exactly the four destructured fields, appends the one row
with the store-assigned id and answers created; and any invocation not
answering created leaves the store unchanged and issues no insert. -/
theorem C8_single_insert (p : Payload) (s : Store) :
    (keyCount p = 4 → validateSchema p = [] →
      findFirstConflict s (getStrD p "login") (getStrD p "email") = none →
      post p s = ⟨.created ⟨s.nextId, getStrD p "login", getStrD p "email",
          getStrD p "password", getStrD p "name"⟩,
        ⟨s.users ++ [⟨s.nextId, getStrD p "login", getStrD p "email",
          getStrD p "password", getStrD p "name"⟩], s.nextId + 1⟩,
        [.uniqRead, .insertOp (getStrD p "name") (getStrD p "login")
          (getStrD p "email") (getStrD p "password")]⟩) ∧
    ((∀ u, (post p s).outcome ≠ .created u) →
      (post p s).store = s ∧
      ∀ n l e pw, StoreOp.insertOp n l e pw ∉ (post p s).ops) := by
  have hany : findFirstConflict s (getStrD p "login") (getStrD p "email") = none →
      s.users.any (conflictsWith (getStrD p "login") (getStrD p "email")) = false := by
    intro hpre
    rw [findFirstConflict, List.find?_eq_none] at hpre
    rw [List.any_eq_false]
    intro x hx
    simp [hpre x hx]
  constructor
  · intro h4 hv hpre
    simp [post, post2, h4, hv, hpre, createUser, hany hpre]
  · intro hnc
    unfold post post2 at hnc ⊢
    by_cases h4 : keyCount p = 4
    · simp only [h4, ne_eq, not_true_eq_false, if_false] at hnc ⊢
      cases hv : validateSchema p with
      | cons e es => simp [hv]
      | nil =>
        simp only [hv] at hnc ⊢
        cases hpre : findFirstConflict s (getStrD p "login") (getStrD p "email") with
        | some w => simp [hpre]
        | none =>
          simp only [hpre, createUser, hany hpre, if_false, Bool.false_eq_true] at hnc
          exact absurd rfl (hnc _)
    · simp [h4]

theorem C8_witness :
    post samplePayload emptyStore = ⟨.created ⟨1, "alice1", "a@x.com", "Abcdef1!", "Alice Doe"⟩,
      ⟨[⟨1, "alice1", "a@x.com", "Abcdef1!", "Alice Doe"⟩], 2⟩,
      [.uniqRead, .insertOp "Alice Doe" "alice1" "a@x.com" "Abcdef1!"]⟩ :=
  (C8_single_insert samplePayload emptyStore).1 (by decide) (by decide) (by decide)

/-- C9 amended. Get-by-query answers 400 without a store read exactly when
the query map has zero keys of any name; a nonempty query map — even one
supplying none of name, login, email — is not rejected and performs the
store read. -/
theorem C9_empty_query_only (q : Query) (s : Store) :
    (q.keyCount = 0 → getByQuery q s = (.badRequest, [])) ∧
    (q.keyCount ≠ 0 → (getByQuery q s).1 ≠ .badRequest ∧
      (getByQuery q s).2 = [.findRead]) := by
  constructor
  · intro h0
    simp [getByQuery, h0]
  · intro h0
    simp only [getByQuery, if_neg h0]
    cases hf : s.users.find? (queryPred q) <;> simp

theorem C9_witness :
    getByQuery ⟨none, none, none, 0⟩ sampleStore = (GetOutcome.badRequest, []) :=
  (C9_empty_query_only ⟨none, none, none, 0⟩ sampleStore).1 (by decide)

/-- C9 as stated is false: a query supplying none of the recognized filters
but a nonempty key set (sampleQueryOnlyOther) is not answered with the 400
client error, and a store read is performed. -/
theorem C9_counterexample :
    sampleQueryOnlyOther.name = none ∧ sampleQueryOnlyOther.login = none ∧
    sampleQueryOnlyOther.email = none ∧
    (getByQuery sampleQueryOnlyOther sampleStore).1 ≠ GetOutcome.badRequest ∧
    (getByQuery sampleQueryOnlyOther sampleStore).2 ≠ [] := by
  decide

/-- C10. A query map that is nonempty but holds only unrecognized parameter
names passes the zero-parameter check: the request is not rejected as a
client error and the store lookup is performed with no recognized filter
supplied. -/
theorem C10_unrecognized_not_rejected (q : Query) (s : Store)
    (hn : q.name = none) (hl : q.login = none) (he : q.email = none)
    (ho : q.otherKeys ≠ 0) :
    (getByQuery q s).1 ≠ .badRequest ∧ (getByQuery q s).2 = [.findRead] := by
  have h0 : q.keyCount ≠ 0 := by
    simp [Query.keyCount, hn, hl, he, ho]
  simp only [getByQuery, if_neg h0]
  cases hf : s.users.find? (queryPred q) <;> simp

theorem C10_witness :
    (getByQuery sampleQueryOnlyOther sampleStore).1 ≠ GetOutcome.badRequest :=
  (C10_unrecognized_not_rejected sampleQueryOnlyOther sampleStore rfl rfl rfl
    (by decide)).1

end UserRoutes
